import Mathlib

/-!
Verification of the concurrency/resource-serialization core of the
AIstudioProxyAPI repository.

Shallow embedding, in Lean 4, of the components of the repository's
`api_utils` package that the specification's claims are about:

* `client_connection.setup_disconnect_monitoring` (the per-request
  liveness / disconnect monitor),
* `model_manager.ModelManager.switch_model_safe` (serialized mode switch),
* `task_manager.AsyncTaskManager` (task registry),
* `session_manager.SessionManager` (round-robin session pool),
* `state_manager.GlobalStateManager` (global state store),
* `graceful_shutdown.GracefulShutdownManager` (ordered shutdown).

The Python code runs under asyncio's single-threaded cooperative
scheduler; code between `await` points is atomic, and every component
protects its cross-cutting state with a dedicated `asyncio.Lock`.  The
embedding therefore models each lock-protected operation as a pure
function on an explicit state value, and models contention as arbitrary
sequential interleaving of those atomic operations.  External effects
(the browser backend, `asyncio.Task` handles, the transport probe) are
modelled as explicit oracle arguments.
-/

namespace AIStudioProxy

/-! ## Liveness monitor (`api_utils/client_connection.py`)

`setup_disconnect_monitoring` keeps a single mutable counter
`disconnect_count` with `disconnect_threshold = 5`.  Each iteration of
`check_disconnect_periodically` performs two checks:

1. the active probe `test_client_connection` (a positive signal is
   `is_connected = True`); if negative the counter is incremented and,
   on reaching the threshold, the monitor sets
   `client_disconnected_event`, resolves `result_future` with an
   HTTP-499 exception (only when the future is not yet done) and breaks
   out of the loop; if positive the counter is reset to `0`;
2. the passive transport flag `http_request.is_disconnected()` (a
   positive signal is `False`), handled with exactly the same counter
   logic.

The monitor state is the counter, the one-shot event, and the resolved
status of the request's future (`none` = not yet resolved). -/

structure MonitorState where
  count : Nat
  eventSet : Bool
  resolved : Option Nat
deriving Repr, DecidableEq

/-- The initial monitor state for a request whose pending result is in
state `r` (`none` when the future is not yet resolved). -/
def MonitorState.init (r : Option Nat) : MonitorState :=
  { count := 0, eventSet := false, resolved := r }

/-- One negative-or-positive signal on either detection path.  This is
the shared body of the two `if` branches of
`check_disconnect_periodically`: on a negative signal (`isNeg = true`)
`disconnect_count` is incremented and, at the threshold, the event is
set and the future resolved with status 499 unless already done; on a
positive signal the counter is reset to `0`.  Once the event is set the
loop has exited, so the state no longer changes. -/
def signalStep (threshold : Nat) (s : MonitorState) (isNeg : Bool) : MonitorState :=
  if s.eventSet then s
  else if isNeg then
    let c := s.count + 1
    if threshold ≤ c then
      { count := c, eventSet := true, resolved := some (s.resolved.getD 499) }
    else { s with count := c }
  else { s with count := 0 }

/-- One iteration of the `while not client_disconnected_event.is_set()`
loop: the active probe (`isConnected` — positive when `true`) followed
by the passive transport flag (`isDisconnected` — positive when
`false`).  If the active branch reaches the threshold it `break`s, and
`signalStep` is the identity on a declared state, so the sequential
composition is faithful to the source. -/
def iterStep (threshold : Nat) (s : MonitorState) (p : Bool × Bool) : MonitorState :=
  if s.eventSet then s
  else signalStep threshold (signalStep threshold s (!p.1)) p.2

/-- Run the monitor over a flat sequence of signals (each drawn from
either detection path, in the order the loop consumes them). -/
def runSignals (threshold : Nat) (s : MonitorState) (sigs : List Bool) : MonitorState :=
  sigs.foldl (signalStep threshold) s

/-- Run the monitor over whole loop iterations, each a pair
`(isConnected, isDisconnected)` of the two probes' outcomes. -/
def runIters (threshold : Nat) (s : MonitorState) (iters : List (Bool × Bool)) : MonitorState :=
  iters.foldl (iterStep threshold) s

/-! ## StateStore (`api_utils/state_manager.py`, `GlobalStateManager`)

Every accessor/mutator of `GlobalStateManager` runs under
`self._state_lock`, so each is modelled as a pure function on an
explicit `StateStore` value.  Opaque external handles (the Playwright
manager, browser, page, WebSocket manager, stream queue/process, worker
task, proxy settings) are modelled by their presence (`Bool`); the
model-catalog entries are dictionaries of which only the `"id"` key is
ever consulted, so an entry is modelled as its optional id; the
parameter cache maps string keys to opaque values, modelled as
strings. -/

structure ModelEntry where
  id : Option String
deriving Repr, DecidableEq

structure StateStore where
  playwrightManagerPresent : Bool
  browserInstancePresent : Bool
  pageInstancePresent : Bool
  isPlaywrightReady : Bool
  isBrowserConnected : Bool
  isPageReady : Bool
  isInitializing : Bool
  currentModelId : Option String
  rawModelListPresent : Bool
  parsedModelList : List ModelEntry
  excludedModelIds : List String
  modelListFetchEventSet : Bool
  pageParamsCache : List (String × String)
  proxySettingsPresent : Bool
  workerTaskPresent : Bool
  logWsManagerPresent : Bool
  streamQueuePresent : Bool
  streamProcessPresent : Bool
deriving Repr, DecidableEq

/-- `GlobalStateManager.__init__`: every field starts at its zero
value. -/
def StateStore.initial : StateStore :=
  { playwrightManagerPresent := false
    browserInstancePresent := false
    pageInstancePresent := false
    isPlaywrightReady := false
    isBrowserConnected := false
    isPageReady := false
    isInitializing := false
    currentModelId := none
    rawModelListPresent := false
    parsedModelList := []
    excludedModelIds := []
    modelListFetchEventSet := false
    pageParamsCache := []
    proxySettingsPresent := false
    workerTaskPresent := false
    logWsManagerPresent := false
    streamQueuePresent := false
    streamProcessPresent := false }

/-- `get_status_flags`: the four readiness flags, in source order. -/
def get_status_flags (s : StateStore) : Bool × Bool × Bool × Bool :=
  (s.isPlaywrightReady, s.isBrowserConnected, s.isPageReady, s.isInitializing)

/-- `is_ready`: all three ready/connected flags and not initializing. -/
def is_ready (s : StateStore) : Bool :=
  s.isPlaywrightReady && s.isBrowserConnected && s.isPageReady && !s.isInitializing

/-- `get_current_model_id`. -/
def get_current_model_id (s : StateStore) : Option String :=
  s.currentModelId

/-- `set_current_model_id`. -/
def set_current_model_id (s : StateStore) (modelId : Option String) : StateStore :=
  { s with currentModelId := modelId }

/-- `get_model_list` (returns a defensive copy; copies are identities on
immutable values). -/
def get_model_list (s : StateStore) : List ModelEntry :=
  s.parsedModelList

/-- `set_model_list`: replaces the parsed list, stores the raw list when
one is given, and sets the one-shot fetch event. -/
def set_model_list (s : StateStore) (modelList : List ModelEntry) (rawGiven : Bool) :
    StateStore :=
  { s with
    parsedModelList := modelList
    rawModelListPresent := if rawGiven then true else s.rawModelListPresent
    modelListFetchEventSet := true }

/-- `get_excluded_model_ids`. -/
def get_excluded_model_ids (s : StateStore) : List String :=
  s.excludedModelIds

/-- `set_excluded_model_ids`. -/
def set_excluded_model_ids (s : StateStore) (ids : List String) : StateStore :=
  { s with excludedModelIds := ids }

/-- `get_cache_value`: lookup in `_page_params_cache` (with `default =
None`). -/
def get_cache_value (s : StateStore) (key : String) : Option String :=
  (s.pageParamsCache.find? (fun p => p.1 = key)).map (fun p => p.2)

/-- `clear_cache`. -/
def clear_cache (s : StateStore) : StateStore :=
  { s with pageParamsCache := [] }

/-- `reset_all_state`: restores the Playwright handles, the four
readiness flags, the model-related fields, the parameter cache and the
worker/WebSocket/stream handles to their zero values.  (It does not
touch `_model_list_fetch_event`, the request queue, the auxiliary
locks, or `_playwright_proxy_settings`, none of which belong to the
specified StateStore data model.) -/
def reset_all_state (s : StateStore) : StateStore :=
  { s with
    playwrightManagerPresent := false
    browserInstancePresent := false
    pageInstancePresent := false
    isPlaywrightReady := false
    isBrowserConnected := false
    isPageReady := false
    isInitializing := false
    currentModelId := none
    rawModelListPresent := false
    parsedModelList := []
    excludedModelIds := []
    pageParamsCache := []
    logWsManagerPresent := false
    streamQueuePresent := false
    streamProcessPresent := false
    workerTaskPresent := false }

/-! ## ModeSwitchCoordinator (`api_utils/model_manager.py`, `ModelManager`)

`switch_model_safe` runs entirely inside `model_switch_context`, i.e.
under `self._switch_lock`, so concurrent callers are serialized: `N`
concurrent calls execute as `N` sequential calls in some order.  The
external backend `switch_ai_studio_model` is modelled as an oracle
outcome per invocation: it returned `True`, returned `False`, or raised
(the `except` branch logs and returns `False`). -/

/-- `is_valid_model`: the target must not be excluded and must be among
the catalog entries' truthy ids (Python's `if m.get("id")` drops both
missing and empty-string ids). -/
def is_valid_model (s : StateStore) (modelId : String) : Bool :=
  if (get_excluded_model_ids s).contains modelId then false
  else
    ((get_model_list s).filterMap (fun m =>
      match m.id with
      | some i => if i = "" then none else some i
      | none => none)).contains modelId

/-- `needs_model_switch`: the current model id differs from the target
(a `None` current id always differs from a string target). -/
def needs_model_switch (s : StateStore) (target : String) : Bool :=
  decide (get_current_model_id s ≠ some target)

/-- Outcome of one invocation of the external backend switch
`switch_ai_studio_model`. -/
inductive BackendOutcome where
  | ok
  | returnedFalse
  | raised
deriving Repr, DecidableEq

/-- Result of one `switch_model_safe` call: the returned boolean, the
post-state, and how many times the backend switch was invoked. -/
structure SwitchResult where
  success : Bool
  state : StateStore
  backendCalls : Nat
deriving Repr, DecidableEq

/-- `switch_model_safe` (body under the switch lock): re-check whether a
switch is still needed, validate the target, invoke the backend, and
update `currentModelId` only when the backend reports success; on a
backend `False` or an exception the state is left unchanged and `False`
is returned. -/
def switch_model_safe (s : StateStore) (target : String) (outcome : BackendOutcome) :
    SwitchResult :=
  if !(needs_model_switch s target) then ⟨true, s, 0⟩
  else if !(is_valid_model s target) then ⟨false, s, 0⟩
  else
    match outcome with
    | .ok => ⟨true, set_current_model_id s (some target), 1⟩
    | .returnedFalse => ⟨false, s, 1⟩
    | .raised => ⟨false, s, 1⟩

/-- One step of a serialized sequence of `switch_model_safe` calls,
accumulating the number of backend invocations. -/
def switchFold (target : String) (acc : StateStore × Nat) (outcome : BackendOutcome) :
    StateStore × Nat :=
  let r := switch_model_safe acc.1 target outcome
  (r.state, acc.2 + r.backendCalls)

/-- A serialized sequence of `switch_model_safe` calls to the same
target (the order in which concurrent callers acquire the switch lock),
each with its own backend oracle outcome. -/
def runSwitches (s : StateStore) (target : String) (outcomes : List BackendOutcome) :
    StateStore × Nat :=
  outcomes.foldl (switchFold target) (s, 0)

/-! ## TaskRegistry (`api_utils/task_manager.py`, `AsyncTaskManager`)

Tasks are modelled by numeric ids; whether a task has already finished
is an oracle `isDone : Nat → Bool` (the scheduler's business, not the
registry's).  `_tasks` is a set of task ids and `_named_tasks` a map
from names to task ids, modelled as an association list in which a key
occurs at most once (Python `dict` semantics; `insertNamed` replaces
any existing binding).  Cancellation requests issued by an operation
are returned explicitly (`cancel()` on an `asyncio.Task` is
fire-and-forget). -/

structure TaskRegistry where
  tasks : List Nat
  named : List (String × Nat)
  shuttingDown : Bool
deriving Repr, DecidableEq

/-- Lookup in the named index (`self._named_tasks.get(name)`). -/
def lookupNamed (name : String) (l : List (String × Nat)) : Option Nat :=
  (l.find? (fun p => p.1 == name)).map (fun p => p.2)

/-- Binding update in the named index
(`self._named_tasks[name] = task`). -/
def insertNamed (name : String) (tid : Nat) (l : List (String × Nat)) :
    List (String × Nat) :=
  (name, tid) :: l.filter (fun p => p.1 != name)

/-- `AsyncTaskManager.create_task` (under `self._lock`): refuse during
shutdown; add the new task to the tracking set; under a name, cancel an
existing not-yet-finished entry (fire-and-forget) and point the index
at the new task.  Returns the new registry state together with the list
of task ids whose cancellation was requested. -/
def create_task (st : TaskRegistry) (isDone : Nat → Bool) (tid : Nat)
    (name : Option String) : Except String (TaskRegistry × List Nat) :=
  if st.shuttingDown then .error "task manager is shutting down"
  else
    let tasks' := if st.tasks.contains tid then st.tasks else tid :: st.tasks
    match name with
    | none => .ok ({ st with tasks := tasks' }, [])
    | some n =>
        match lookupNamed n st.named with
        | some old =>
            .ok ({ st with tasks := tasks', named := insertNamed n tid st.named },
                 if isDone old then [] else [old])
        | none =>
            .ok ({ st with tasks := tasks', named := insertNamed n tid st.named }, [])

/-- `task_done_callback` registered by `create_task`: discard the
completed task from the tracking set, and remove its name entry only if
the index still maps that name to the completed task itself. -/
def task_done_callback (st : TaskRegistry) (name : Option String) (completed : Nat) :
    TaskRegistry :=
  let tasks' := st.tasks.filter (fun t => t != completed)
  match name with
  | none => { st with tasks := tasks' }
  | some n =>
      if lookupNamed n st.named == some completed then
        { st with tasks := tasks', named := st.named.filter (fun p => p.1 != n) }
      else { st with tasks := tasks' }

/-- `AsyncTaskManager.cancel_all_tasks`: mark the registry as shutting
down; collect the not-yet-finished tracked tasks; if there are none,
return early ("没有需要取消的任务") without touching the bookkeeping;
otherwise cancel them, wait once for the whole batch up to the timeout,
and clear both the tracking set and the named index unconditionally.
The timeout only bounds the wait and does not influence the final
bookkeeping, so it does not appear in the state transition. -/
def cancel_all_tasks (st : TaskRegistry) (isDone : Nat → Bool) : TaskRegistry :=
  let toCancel := st.tasks.filter (fun t => !(isDone t))
  if toCancel.isEmpty then { st with shuttingDown := true }
  else { st with shuttingDown := true, tasks := [], named := [] }

/-! ## SessionPool (`api_utils/session_manager.py`, `SessionManager`)

A session is identified by its credential-profile filename with the
`.json` suffix removed.  Whether `Session.initialize` succeeds for a
given credential file is an oracle `initOk`.  The pool keeps the list
of successfully initialized sessions and a round-robin cursor. -/

structure SessionPool where
  sessions : List String
  rrIndex : Nat
deriving Repr, DecidableEq

/-- Lexicographic (code-point) comparison of character lists: Python's
`str` ordering. -/
def charListLt : List Char → List Char → Bool
  | [], [] => false
  | [], _ :: _ => true
  | _ :: _, [] => false
  | a :: as, b :: bs => if a < b then true else if b < a then false else charListLt as bs

/-- Python's `a < b` on strings. -/
def pyStrLt (a b : String) : Bool :=
  charListLt a.data b.data

/-- Python's `s.endswith(pat)`. -/
def pyEndsWith (s pat : String) : Bool :=
  pat.data.isSuffixOf s.data

/-- Left-to-right, non-overlapping replacement of every occurrence of
`pat` (non-empty in all uses) by `repl`, with fuel bounding the scan. -/
def replaceChars (pat repl : List Char) : Nat → List Char → List Char
  | _, [] => []
  | 0, l => l
  | fuel + 1, c :: rest =>
      if pat.isPrefixOf (c :: rest) then
        repl ++ replaceChars pat repl fuel ((c :: rest).drop pat.length)
      else c :: replaceChars pat repl fuel rest

/-- Python's `s.replace(pat, repl)` for a non-empty `pat`. -/
def pyReplace (s pat repl : String) : String :=
  ⟨replaceChars pat.data repl.data s.data.length s.data⟩

/-- Insertion of one element into a sorted list (stable: an element is
placed after existing equal elements, like Python's stable `sort`). -/
def insertSorted (x : String) : List String → List String
  | [] => [x]
  | y :: ys => if pyStrLt x y then x :: y :: ys else y :: insertSorted x ys

/-- `files.sort()`: ascending lexicographic order. -/
def sortStrings (l : List String) : List String :=
  l.foldr insertSorted []

/-- `SessionManager.initialize_all`: keep the `.json` credential files,
sort them lexicographically, attempt to initialize one session per file
in that order, and retain only the successes, each identified by the
filename with `.json` removed (`f.replace('.json', '')`).  The cursor
starts at 0. -/
def initialize_all (files : List String) (initOk : String → Bool) : SessionPool :=
  let jsonFiles := sortStrings (files.filter (fun f => pyEndsWith f ".json"))
  { sessions := (jsonFiles.filter initOk).map (fun f => pyReplace f ".json" "")
    rrIndex := 0 }

/-- `SessionManager.acquire_session`: `None` on an empty pool, else the
session at the cursor, advancing the cursor modulo the pool size.
(The source indexes `self.sessions[self._rr_index]` directly; the
cursor stays below the pool size along every reachable state, which the
round-robin theorem's hypotheses track explicitly.) -/
def acquire_session (st : SessionPool) : Option String × SessionPool :=
  if st.sessions.isEmpty then (none, st)
  else
    (st.sessions.get? st.rrIndex,
     { st with rrIndex := (st.rrIndex + 1) % st.sessions.length })

/-- `n` successive `acquire_session` calls, collecting the results. -/
def acquireN : Nat → SessionPool → List (Option String) × SessionPool
  | 0, st => ([], st)
  | n + 1, st =>
      let r := acquire_session st
      let rest := acquireN n r.2
      (r.1 :: rest.1, rest.2)

/-! ## ShutdownCoordinator (`api_utils/graceful_shutdown.py`,
`GracefulShutdownManager`)

Handlers are modelled by numeric ids in registration order.  Under
asyncio's cooperative scheduler, each caller of `shutdown()` advances
through atomic segments separated by `await` points:

* `.start` — the body up to and including the check of
  `_is_shutting_down` and (when it was unset) setting it: there is no
  `await` between the check and the assignment, so this is one atomic
  segment; a caller that finds the flag set proceeds to await
  `_shutdown_event.wait()`;
* `.running rest` — the handler loop with `rest` still to run; each
  segment awaits one handler (failures are caught and logged, which
  does not affect the sequence); when none remain, the `finally` block
  sets `_shutdown_event`;
* `.waiting` — blocked on `_shutdown_event.wait()`, which returns once
  the event is set;
* `.finished` — the call has returned.

A step returns the new shared state, the caller's next segment, and the
handlers executed by the step. -/

inductive ShutdownProc where
  | start
  | running (rest : List Nat)
  | waiting
  | finished
deriving Repr, DecidableEq

structure ShutdownShared where
  handlers : List Nat
  isShuttingDown : Bool
  eventSet : Bool
deriving Repr, DecidableEq

/-- One atomic segment of one `shutdown()` caller. -/
def shutdownStep (sh : ShutdownShared) (p : ShutdownProc) :
    ShutdownShared × ShutdownProc × List Nat :=
  match p with
  | .start =>
      if sh.isShuttingDown then (sh, .waiting, [])
      else ({ sh with isShuttingDown := true }, .running sh.handlers.reverse, [])
  | .running [] => ({ sh with eventSet := true }, .finished, [])
  | .running (h :: rest) => (sh, .running rest, [h])
  | .waiting => if sh.eventSet then (sh, .finished, []) else (sh, .waiting, [])
  | .finished => (sh, .finished, [])

/-- Two concurrent `shutdown()` callers over the shared manager state,
with the handlers each caller has executed so far. -/
structure TwoCallers where
  sh : ShutdownShared
  p1 : ShutdownProc
  p2 : ShutdownProc
  em1 : List Nat
  em2 : List Nat
deriving Repr, DecidableEq

/-- Advance one of the two callers by one atomic segment
(`pickFirst = true` steps the first caller). -/
def schedStep (c : TwoCallers) (pickFirst : Bool) : TwoCallers :=
  if pickFirst then
    let r := shutdownStep c.sh c.p1
    { c with sh := r.1, p1 := r.2.1, em1 := c.em1 ++ r.2.2 }
  else
    let r := shutdownStep c.sh c.p2
    { c with sh := r.1, p2 := r.2.1, em2 := c.em2 ++ r.2.2 }

/-- Run an arbitrary interleaving (schedule) of the two callers. -/
def runSched (c : TwoCallers) (sched : List Bool) : TwoCallers :=
  sched.foldl schedStep c

/-- Both callers about to invoke `shutdown()` on a manager with the
given handlers registered (in registration order) and not yet shutting
down. -/
def initConfig (handlers : List Nat) : TwoCallers :=
  ⟨⟨handlers, false, false⟩, .start, .start, [], []⟩

/-- The caller driving the handler loop: either mid-loop (event not yet
set, executed ++ remaining = reverse registration order) or finished
(event set, executed exactly the reverse registration order). -/
def RunnerSt (H : List Nat) (sh : ShutdownShared) (p : ShutdownProc)
    (em : List Nat) : Prop :=
  (∃ rest, p = .running rest ∧ sh.eventSet = false ∧ em ++ rest = H.reverse)
  ∨ (p = .finished ∧ sh.eventSet = true ∧ em = H.reverse)

/-- A caller that is not driving the handler loop: not yet entered,
blocked on the completion event, or finished — the latter only once the
event is set. -/
def WaiterSt (sh : ShutdownShared) (p : ShutdownProc) : Prop :=
  p = .start ∨ p = .waiting ∨ (p = .finished ∧ sh.eventSet = true)

/-- Reachable configurations in which the first caller entered
`shutdown()` first and became the runner. -/
def RunnerIsFirst (H : List Nat) (c : TwoCallers) : Prop :=
  c.sh.handlers = H ∧ c.sh.isShuttingDown = true ∧ c.em2 = []
  ∧ RunnerSt H c.sh c.p1 c.em1 ∧ WaiterSt c.sh c.p2

/-! ## Theorems about the liveness monitor -/

theorem signalStep_of_eventSet (threshold : Nat) (s : MonitorState) (b : Bool)
    (h : s.eventSet = true) : signalStep threshold s b = s := by
  simp [signalStep, h]

theorem iterStep_eq_signalSteps (threshold : Nat) (s : MonitorState) (p : Bool × Bool) :
    iterStep threshold s p = signalStep threshold (signalStep threshold s (!p.1)) p.2 := by
  by_cases h : s.eventSet = true
  · simp [iterStep, h, signalStep_of_eventSet, signalStep_of_eventSet threshold s (!p.1) h]
  · simp [iterStep, Bool.not_eq_true] at h ⊢
    simp [h]

/-- Running the iteration-level monitor equals running the flat
signal-level monitor on the interleaved signal sequence
(active-path signal negated, then passive-path signal). -/
theorem runIters_eq_runSignals (threshold : Nat) (s : MonitorState)
    (iters : List (Bool × Bool)) :
    runIters threshold s iters
      = runSignals threshold s (iters.flatMap (fun p => [!p.1, p.2])) := by
  induction iters generalizing s with
  | nil => rfl
  | cons p rest ih =>
      simp only [runIters, runSignals, List.foldl_cons, List.flatMap_cons, List.foldl_append]
      rw [iterStep_eq_signalSteps]
      exact ih _

/-- Once the monitor has declared disconnection (event set, loop
exited), no further signals change its state. -/
theorem runSignals_of_eventSet (threshold : Nat) (s : MonitorState) (sigs : List Bool)
    (h : s.eventSet = true) : runSignals threshold s sigs = s := by
  induction sigs with
  | nil => rfl
  | cons b rest ih =>
      simp only [runSignals, List.foldl_cons] at ih ⊢
      rw [signalStep_of_eventSet threshold s b h, ih]

/-- From any undeclared state, `n ≥ 1` consecutive negative signals with
`threshold ≤ count + n` declare disconnection, and the pending result is
resolved with 499 exactly when it was not already resolved. -/
theorem runSignals_neg_run_declares (threshold : Nat) :
    ∀ (n : Nat) (s : MonitorState), 1 ≤ n → s.eventSet = false →
      threshold ≤ s.count + n →
      (runSignals threshold s (List.replicate n true)).eventSet = true
      ∧ (runSignals threshold s (List.replicate n true)).resolved
          = some (s.resolved.getD 499) := by
  intro n
  induction n with
  | zero => intro s h1 _ _; omega
  | succ m ih =>
      intro s _ hev hth
      rw [List.replicate_succ]
      simp only [runSignals, List.foldl_cons] at ih ⊢
      by_cases hdecl : threshold ≤ s.count + 1
      · have hstep : signalStep threshold s true
            = { count := s.count + 1, eventSet := true,
                resolved := some (s.resolved.getD 499) } := by
          simp [signalStep, hev, hdecl]
        rw [hstep]
        rw [show (List.foldl (signalStep threshold)
              { count := s.count + 1, eventSet := true,
                resolved := some (s.resolved.getD 499) } (List.replicate m true)
            = { count := s.count + 1, eventSet := true,
                resolved := some (s.resolved.getD 499) } : _)
          from runSignals_of_eventSet threshold _ _ rfl]
        exact ⟨rfl, rfl⟩
      · have hm : 1 ≤ m := by omega
        have hstep : signalStep threshold s true = { s with count := s.count + 1 } := by
          simp [signalStep, hev, hdecl]
        rw [hstep]
        have := ih { s with count := s.count + 1 } hm (by simpa using hev)
          (by simpa using by omega)
        simpa using this

/-- C3.  The disconnect monitor is debounced at threshold 5: four
consecutive negative probes followed by one positive probe do not
declare disconnection; five consecutive negative signals (in the flat
stream of signals the loop consumes, which interleaves the active-probe
path and the passive transport-flag path — `runIters_eq_runSignals`)
declare disconnection, resolving the pending result with status 499
exactly when it is not already resolved (an already-resolved result is
kept, so a second resolution attempt is a no-op); and once declared the
monitor performs no further action, so the disconnection is declared
exactly once. -/
theorem C3_debounce_threshold_and_single_resolution :
    (∀ r : Option Nat,
        (runSignals 5 (MonitorState.init r) [true, true, true, true, false]).eventSet = false)
    ∧ (∀ s : MonitorState, s.eventSet = false →
        (runSignals 5 s (List.replicate 5 true)).eventSet = true
        ∧ (runSignals 5 s (List.replicate 5 true)).resolved = some (s.resolved.getD 499))
    ∧ (∀ (s : MonitorState) (sigs : List Bool), s.eventSet = true →
        runSignals 5 s sigs = s) := by
  refine ⟨?_, ?_, ?_⟩
  · intro r
    simp [runSignals, signalStep, MonitorState.init]
  · intro s hev
    exact runSignals_neg_run_declares 5 5 s (by omega) hev (by omega)
  · intro s sigs h
    exact runSignals_of_eventSet 5 s sigs h

/-- Witness for C3 at concrete inputs: a fresh monitor with an
unresolved result, and a declared state hit by one more signal. -/
theorem C3_witness :
    (runSignals 5 (MonitorState.init none) [true, true, true, true, false]).eventSet = false
    ∧ (runSignals 5 (MonitorState.init none) (List.replicate 5 true)).eventSet = true
    ∧ (runSignals 5 (MonitorState.init none) (List.replicate 5 true)).resolved = some 499
    ∧ runSignals 5 ⟨3, true, some 499⟩ [true] = ⟨3, true, some 499⟩ := by
  refine ⟨C3_debounce_threshold_and_single_resolution.1 none, ?_, ?_, ?_⟩
  · exact (C3_debounce_threshold_and_single_resolution.2.1 (MonitorState.init none) rfl).1
  · simpa using (C3_debounce_threshold_and_single_resolution.2.1 (MonitorState.init none) rfl).2
  · exact C3_debounce_threshold_and_single_resolution.2.2 ⟨3, true, some 499⟩ [true] rfl

/-- C4 counterexample.  The claim predicts that 5 consecutive negative
signals on the active-probe path declare disconnection even when every
passive transport-flag signal is positive.  In the code the two paths
share the single counter `disconnect_count`, and the positive passive
signal resets it each iteration, so after 5 such iterations (active
probe negative: `is_connected = false`; passive flag positive:
`is_disconnected = false`) no disconnection is declared. -/
theorem C4_counterexample :
    (runIters 5 (MonitorState.init none) (List.replicate 5 (false, false))).eventSet = false := by
  decide

/-- C4 (amended).  The two detection paths share one consecutive-failure
counter: a positive signal on either path resets that shared counter to
zero.  Consequently a negative streak on one path interleaved with
positive signals on the other never declares disconnection — neither
active-negative/passive-positive iterations nor
active-positive/passive-negative iterations, for any number of
iterations. -/
theorem C4_shared_counter_reset :
    (∀ s : MonitorState, s.eventSet = false → (signalStep 5 s false).count = 0)
    ∧ (∀ (k : Nat) (r : Option Nat),
        (runIters 5 (MonitorState.init r) (List.replicate k (false, false))).eventSet = false)
    ∧ (∀ (k : Nat) (r : Option Nat),
        (runIters 5 (MonitorState.init r) (List.replicate k (true, true))).eventSet = false) := by
  refine ⟨?_, ?_, ?_⟩
  · intro s hev
    simp [signalStep, hev]
  · intro k r
    have hfix : ∀ k : Nat,
        runIters 5 (MonitorState.init r) (List.replicate k (false, false))
          = MonitorState.init r := by
      intro k
      induction k with
      | zero => rfl
      | succ m ih =>
          rw [List.replicate_succ]
          simp only [runIters, List.foldl_cons] at ih ⊢
          rw [show iterStep 5 (MonitorState.init r) (false, false) = MonitorState.init r from by
            simp [iterStep, signalStep, MonitorState.init]]
          exact ih
    rw [hfix k]
    rfl
  · intro k r
    have hstep : ∀ c : Nat, iterStep 5 ⟨c, false, r⟩ (true, true) = ⟨1, false, r⟩ := by
      intro c
      simp [iterStep, signalStep]
    have hfix : ∀ k : Nat, 1 ≤ k →
        runIters 5 (MonitorState.init r) (List.replicate k (true, true)) = ⟨1, false, r⟩ := by
      intro k
      induction k with
      | zero => omega
      | succ m ih =>
          intro _
          rw [List.replicate_succ]
          simp only [runIters, List.foldl_cons] at ih ⊢
          rw [show iterStep 5 (MonitorState.init r) (true, true) = ⟨1, false, r⟩ from hstep 0]
          rcases Nat.eq_zero_or_pos m with hm | hm
          · subst hm; rfl
          · have := ih
            simp only [runIters] at this
            calc List.foldl (iterStep 5) ⟨1, false, r⟩ (List.replicate m (true, true))
                = List.foldl (iterStep 5) (MonitorState.init r)
                    (List.replicate m (true, true)) := by
                  rcases m with - | m'
                  · omega
                  · rw [List.replicate_succ, List.foldl_cons, List.foldl_cons]
                    rw [hstep 1, show iterStep 5 (MonitorState.init r) (true, true)
                        = ⟨1, false, r⟩ from hstep 0]
              _ = ⟨1, false, r⟩ := ih hm
    rcases Nat.eq_zero_or_pos k with hk | hk
    · subst hk; rfl
    · rw [hfix k hk]

/-! ## Theorems about the mode-switch coordinator and the state store -/

/-- A serialized run of `switch_model_safe` calls is a fixed point once
the current model already equals the target: every later call
short-circuits at the re-check, returns success, and never invokes the
backend. -/
theorem runSwitches_fixed_of_current_eq (target : String) :
    ∀ (outcomes : List BackendOutcome) (s : StateStore) (c : Nat),
      s.currentModelId = some target →
      outcomes.foldl (switchFold target) (s, c) = (s, c) := by
  intro outcomes
  induction outcomes with
  | nil => intro s c _; rfl
  | cons oc rest ih =>
      intro s c h
      have hstep : switchFold target (s, c) oc = (s, c) := by
        simp [switchFold, switch_model_safe, needs_model_switch, get_current_model_id, h]
      rw [List.foldl_cons, hstep]
      exact ih s c h

/-- C1.  Under the switch lock's serialization: a `switch_model_safe`
call that finds the current model already equal to the target (in
particular one that acquired the lock after a concurrent caller already
performed the switch) returns success without invoking the backend; and
a serialized sequence of calls to the same (initially different, valid)
target whose first backend invocation succeeds performs exactly one
backend switch in total, whatever the later callers' oracles would have
answered. -/
theorem C1_recheck_short_circuit_single_backend_switch :
    (∀ (s : StateStore) (target : String) (oc : BackendOutcome),
        get_current_model_id s = some target →
        switch_model_safe s target oc = ⟨true, s, 0⟩)
    ∧ (∀ (s : StateStore) (target : String) (rest : List BackendOutcome),
        get_current_model_id s ≠ some target →
        is_valid_model s target = true →
        (runSwitches s target (.ok :: rest)).2 = 1
        ∧ (runSwitches s target (.ok :: rest)).1.currentModelId = some target) := by
  constructor
  · intro s target oc h
    simp [switch_model_safe, needs_model_switch, h]
  · intro s target rest hne hvalid
    have hneeds : needs_model_switch s target = true := by
      simp [needs_model_switch, hne]
    have hfirst : switchFold target (s, 0) .ok
        = (set_current_model_id s (some target), 1) := by
      simp [switchFold, switch_model_safe, hneeds, hvalid]
    have hrest := runSwitches_fixed_of_current_eq target rest
      (set_current_model_id s (some target)) 1 rfl
    unfold runSwitches
    rw [List.foldl_cons, hfirst, hrest]
    exact ⟨rfl, rfl⟩

/-- Witness for C1: a pool with catalog `[m1, m2]`; a short-circuiting
call whose current model is already the target, and a serialized batch
of three callers to `m2` of which only the first invokes the backend. -/
theorem C1_witness :
    switch_model_safe
        { StateStore.initial with
          currentModelId := some "m1"
          parsedModelList := [⟨some "m1"⟩, ⟨some "m2"⟩] } "m1" .returnedFalse
      = ⟨true,
          { StateStore.initial with
            currentModelId := some "m1"
            parsedModelList := [⟨some "m1"⟩, ⟨some "m2"⟩] }, 0⟩
    ∧ (runSwitches
        { StateStore.initial with
          currentModelId := some "m1"
          parsedModelList := [⟨some "m1"⟩, ⟨some "m2"⟩] } "m2"
        [.ok, .returnedFalse, .ok]).2 = 1
    ∧ (runSwitches
        { StateStore.initial with
          currentModelId := some "m1"
          parsedModelList := [⟨some "m1"⟩, ⟨some "m2"⟩] } "m2"
        [.ok, .returnedFalse, .ok]).1.currentModelId = some "m2" := by
  refine ⟨?_, ?_, ?_⟩
  · exact C1_recheck_short_circuit_single_backend_switch.1 _ "m1" .returnedFalse (by decide)
  · exact (C1_recheck_short_circuit_single_backend_switch.2 _ "m2"
      [.returnedFalse, .ok] (by decide) (by decide)).1
  · exact (C1_recheck_short_circuit_single_backend_switch.2 _ "m2"
      [.returnedFalse, .ok] (by decide) (by decide)).2

/-- C7.  When the backend switch fails (returns `False` or raises),
`switch_model_safe` returns failure and leaves the state unchanged; the
state is changed only by a successful backend invocation, and then only
by setting `currentModelId` to the target. -/
theorem C7_backend_failure_no_partial_state :
    (∀ (s : StateStore) (target : String) (oc : BackendOutcome), oc ≠ .ok →
        (switch_model_safe s target oc).state = s
        ∧ ((switch_model_safe s target oc).backendCalls = 1 →
            (switch_model_safe s target oc).success = false))
    ∧ (∀ (s : StateStore) (target : String) (oc : BackendOutcome),
        (switch_model_safe s target oc).state ≠ s →
        oc = .ok ∧ (switch_model_safe s target oc).success = true
        ∧ (switch_model_safe s target oc).state.currentModelId = some target) := by
  constructor
  · intro s target oc hoc
    by_cases h1 : needs_model_switch s target = true
    · by_cases h2 : is_valid_model s target = true
      · cases oc with
        | ok => exact absurd rfl hoc
        | returnedFalse => simp [switch_model_safe, h1, h2]
        | raised => simp [switch_model_safe, h1, h2]
      · have h2' : is_valid_model s target = false := by
          revert h2; cases is_valid_model s target <;> simp
        simp [switch_model_safe, h1, h2']
    · have h1' : needs_model_switch s target = false := by
        revert h1; cases needs_model_switch s target <;> simp
      simp [switch_model_safe, h1']
  · intro s target oc hne
    by_cases h1 : needs_model_switch s target = true
    · by_cases h2 : is_valid_model s target = true
      · cases oc with
        | ok =>
            refine ⟨rfl, ?_, ?_⟩ <;>
              simp [switch_model_safe, h1, h2, set_current_model_id]
        | returnedFalse => simp [switch_model_safe, h1, h2] at hne
        | raised => simp [switch_model_safe, h1, h2] at hne
      · have h2' : is_valid_model s target = false := by
          revert h2; cases is_valid_model s target <;> simp
        simp [switch_model_safe, h1, h2'] at hne
    · have h1' : needs_model_switch s target = false := by
        revert h1; cases needs_model_switch s target <;> simp
      simp [switch_model_safe, h1'] at hne

/-- Witness for C7: a failing backend call on a valid pending switch
leaves the concrete state unchanged, and a successful one changes only
the current model id. -/
theorem C7_witness :
    ((switch_model_safe
        { StateStore.initial with parsedModelList := [⟨some "m"⟩] } "m"
        .returnedFalse).state
      = { StateStore.initial with parsedModelList := [⟨some "m"⟩] }
    ∧ ((switch_model_safe
        { StateStore.initial with parsedModelList := [⟨some "m"⟩] } "m"
        .returnedFalse).backendCalls = 1 →
      (switch_model_safe
        { StateStore.initial with parsedModelList := [⟨some "m"⟩] } "m"
        .returnedFalse).success = false))
    ∧ (BackendOutcome.ok = BackendOutcome.ok
    ∧ (switch_model_safe
        { StateStore.initial with parsedModelList := [⟨some "m"⟩] } "m" .ok).success = true
    ∧ (switch_model_safe
        { StateStore.initial with parsedModelList := [⟨some "m"⟩] } "m"
        .ok).state.currentModelId = some "m") := by
  constructor
  · exact C7_backend_failure_no_partial_state.1
      { StateStore.initial with parsedModelList := [⟨some "m"⟩] } "m" .returnedFalse (by decide)
  · exact C7_backend_failure_no_partial_state.2
      { StateStore.initial with parsedModelList := [⟨some "m"⟩] } "m" .ok (by decide)

/-- C9.  `reset_all_state` restores every StateStore field to its zero
value: afterwards the model catalog is empty, the current model id is
`None`, all four readiness flags are `False` (so the system is not
ready), every cache lookup misses, and the excluded set is empty.  It
is callable without prior initialization (on the initial state it is
the identity) and idempotent. -/
theorem C9_reset_round_trip :
    ∀ s : StateStore,
      get_model_list (reset_all_state s) = []
      ∧ get_current_model_id (reset_all_state s) = none
      ∧ get_status_flags (reset_all_state s) = (false, false, false, false)
      ∧ is_ready (reset_all_state s) = false
      ∧ (∀ key : String, get_cache_value (reset_all_state s) key = none)
      ∧ get_excluded_model_ids (reset_all_state s) = []
      ∧ reset_all_state StateStore.initial = StateStore.initial
      ∧ reset_all_state (reset_all_state s) = reset_all_state s := by
  intro s
  exact ⟨rfl, rfl, rfl, rfl, fun _ => rfl, rfl, rfl, rfl⟩

/-! ## Theorems about the task registry -/

/-- C5.  Registering a task under a name that is already bound to a
not-yet-finished task cancels the old task and leaves the index mapping
the name to the new task only; the named index keeps at most one entry
per name. -/
theorem C5_named_task_supersession :
    ∀ (st : TaskRegistry) (isDone : Nat → Bool) (tid old : Nat) (name : String),
      st.shuttingDown = false →
      lookupNamed name st.named = some old →
      isDone old = false →
      create_task st isDone tid (some name)
        = .ok ({ st with
                 tasks := if st.tasks.contains tid then st.tasks else tid :: st.tasks,
                 named := insertNamed name tid st.named }, [old])
      ∧ lookupNamed name (insertNamed name tid st.named) = some tid
      ∧ (∀ p ∈ insertNamed name tid st.named, p.1 = name → p.2 = tid)
      ∧ ((st.named.map Prod.fst).Nodup → ((insertNamed name tid st.named).map Prod.fst).Nodup) := by
  intro st isDone tid old name hsd hlk hdone
  refine ⟨?_, ?_, ?_, ?_⟩
  · simp [create_task, hsd, hlk, hdone]
  · simp [lookupNamed, insertNamed]
  · intro p hp hpname
    rcases List.mem_cons.mp hp with hp | hp
    · rw [hp]
    · have := (List.mem_filter.mp hp).2
      simp [hpname] at this
  · intro hnd
    simp only [insertNamed, List.map_cons]
    refine List.nodup_cons.mpr ⟨?_, ?_⟩
    · intro hmem
      obtain ⟨p, hpmem, hpfst⟩ := List.mem_map.mp hmem
      have := (List.mem_filter.mp hpmem).2
      simp [hpfst] at this
    · exact List.Nodup.sublist ((List.filter_sublist st.named).map Prod.fst) hnd

/-- Witness for C5: registering task 9 under name `X`, currently bound
to the unfinished task 7, cancels 7 and rebinds `X` to 9. -/
theorem C5_witness :
    create_task ⟨[7], [("X", 7)], false⟩ (fun _ => false) 9 (some "X")
      = .ok (⟨[9, 7], [("X", 9)], false⟩, [7])
    ∧ lookupNamed "X" (insertNamed "X" 9 [("X", 7)]) = some 9
    ∧ (∀ p ∈ insertNamed "X" 9 [("X", 7)], p.1 = "X" → p.2 = 9)
    ∧ (([("X", 7)].map Prod.fst).Nodup →
        ((insertNamed "X" 9 [("X", 7)]).map Prod.fst).Nodup) := by
  have h := C5_named_task_supersession ⟨[7], [("X", 7)], false⟩ (fun _ => false) 9 7 "X"
    rfl (by decide) rfl
  refine ⟨?_, h.2.1, h.2.2.1, h.2.2.2⟩
  have h1 := h.1
  simpa [insertNamed] using h1

/-- C6 counterexample.  The claim predicts that `cancel_all_tasks`
leaves the bookkeeping empty for every registry state, including states
whose tracked tasks have all finished (a finished task stays tracked
until its completion callback runs, so such states occur).  On the
state tracking the single already-finished task 0 under name `X`,
`cancel_all_tasks` takes the "nothing to cancel" early return and
leaves both the set and the index non-empty. -/
theorem C6_counterexample :
    ¬ ((cancel_all_tasks ⟨[0], [("X", 0)], false⟩ (fun _ => true)).tasks = []
       ∧ (cancel_all_tasks ⟨[0], [("X", 0)], false⟩ (fun _ => true)).named = []) := by
  decide

/-- C6 (amended).  Whenever at least one tracked task is unfinished,
`cancel_all_tasks` clears both the unnamed task set and the named index
(and marks the registry shutting down) regardless of the timeout; when
every tracked task has already finished it returns early, changing
nothing but the shutdown flag. -/
theorem C6_cancel_all_clears_bookkeeping :
    (∀ (st : TaskRegistry) (isDone : Nat → Bool),
        (∃ t ∈ st.tasks, isDone t = false) →
        (cancel_all_tasks st isDone).tasks = []
        ∧ (cancel_all_tasks st isDone).named = []
        ∧ (cancel_all_tasks st isDone).shuttingDown = true)
    ∧ (∀ (st : TaskRegistry) (isDone : Nat → Bool),
        (∀ t ∈ st.tasks, isDone t = true) →
        cancel_all_tasks st isDone = { st with shuttingDown := true }) := by
  constructor
  · intro st isDone h
    obtain ⟨t, ht, hf⟩ := h
    have hmem : t ∈ st.tasks.filter (fun t => !(isDone t)) :=
      List.mem_filter.mpr ⟨ht, by simp [hf]⟩
    have hne : st.tasks.filter (fun t => !(isDone t)) ≠ [] :=
      List.ne_nil_of_mem hmem
    have hE : (st.tasks.filter (fun t => !(isDone t))).isEmpty = false := by
      cases hE : (st.tasks.filter (fun t => !(isDone t))).isEmpty
      · rfl
      · exact absurd (List.isEmpty_iff.mp hE) hne
    refine ⟨?_, ?_, ?_⟩ <;> simp [cancel_all_tasks, hE]
  · intro st isDone h
    have hgen : ∀ l : List Nat, (∀ t ∈ l, isDone t = true) →
        l.filter (fun t => !(isDone t)) = [] := by
      intro l hl
      induction l with
      | nil => rfl
      | cons a l ih =>
          rw [List.filter_cons]
          have ha : isDone a = true := hl a (by simp)
          simp only [ha, Bool.not_true, Bool.false_eq_true, if_false]
          exact ih (fun t ht => hl t (by simp [ht]))
    simp [cancel_all_tasks, hgen st.tasks h]

/-- Witness for C6's amended theorem: a registry with an unfinished
task is fully cleared; a registry whose every tracked task is finished
only gains the shutdown mark. -/
theorem C6_witness :
    ((cancel_all_tasks ⟨[4], [("Y", 4)], false⟩ (fun _ => false)).tasks = []
    ∧ (cancel_all_tasks ⟨[4], [("Y", 4)], false⟩ (fun _ => false)).named = []
    ∧ (cancel_all_tasks ⟨[4], [("Y", 4)], false⟩ (fun _ => false)).shuttingDown = true)
    ∧ cancel_all_tasks ⟨[], [], false⟩ (fun _ => true) = ⟨[], [], true⟩ := by
  constructor
  · exact C6_cancel_all_clears_bookkeeping.1 ⟨[4], [("Y", 4)], false⟩ (fun _ => false)
      ⟨4, by decide, rfl⟩
  · exact C6_cancel_all_clears_bookkeeping.2 ⟨[], [], false⟩ (fun _ => true)
      (by intro t ht; cases ht)

/-- C10.  When a superseded named task completes after its replacement
was registered under the same name, the completion callback leaves the
named index untouched: the name still maps to the live replacement. -/
theorem C10_done_callback_keeps_replacement :
    ∀ (st : TaskRegistry) (name : String) (oldT newT : Nat),
      lookupNamed name st.named = some newT → newT ≠ oldT →
      (task_done_callback st (some name) oldT).named = st.named
      ∧ lookupNamed name (task_done_callback st (some name) oldT).named = some newT := by
  intro st name oldT newT hlk hne
  have hcond : (lookupNamed name st.named == some oldT) = false := by
    rw [hlk]
    simp [hne]
  refine ⟨?_, ?_⟩
  · simp [task_done_callback, hcond]
  · simp [task_done_callback, hcond, hlk, hne]

/-- Witness for C10: task 3's completion callback fires while name `X`
is already rebound to task 5; the binding to 5 survives. -/
theorem C10_witness :
    (task_done_callback ⟨[3, 5], [("X", 5)], false⟩ (some "X") 3).named = [("X", 5)]
    ∧ lookupNamed "X" (task_done_callback ⟨[3, 5], [("X", 5)], false⟩ (some "X") 3).named
        = some 5 :=
  C10_done_callback_keeps_replacement ⟨[3, 5], [("X", 5)], false⟩ "X" 3 5 (by decide) (by decide)

/-! ## Theorems about the session pool -/

/-- Acquiring `m` sessions from cursor `i` with `i + m` still within the
pool returns the window `l[i..i+m)` and leaves the cursor at
`(i + m) % |l|`. -/
theorem acquireN_window (l : List String) :
    ∀ (m i : Nat), i < l.length → i + m ≤ l.length →
      acquireN m ⟨l, i⟩ = (((l.drop i).take m).map some, ⟨l, (i + m) % l.length⟩) := by
  intro m
  induction m with
  | zero =>
      intro i hi _
      simp [acquireN, Nat.mod_eq_of_lt hi]
  | succ m ih =>
      intro i hi hm
      have hEmpty : l.isEmpty = false := by
        cases l
        · simp at hi
        · rfl
      have hacq : acquire_session ⟨l, i⟩ = (l.get? i, ⟨l, (i + 1) % l.length⟩) := by
        simp [acquire_session, hEmpty]
      have hget : l.get? i = some l[i] := by
        rw [List.get?_eq_getElem?]
        exact List.getElem?_eq_getElem hi
      have hdrop : l.drop i = l[i] :: l.drop (i + 1) := List.drop_eq_getElem_cons hi
      simp only [acquireN]
      rw [hacq]
      rcases Nat.lt_or_ge (i + 1) l.length with hlt | hge
      · have hmod : (i + 1) % l.length = i + 1 := Nat.mod_eq_of_lt hlt
        rw [hmod]
        have hstep := ih (i + 1) hlt (by omega)
        have harith : i + 1 + m = i + (m + 1) := by omega
        rw [harith] at hstep
        rw [hstep, hget, hdrop]
        simp
        rw [List.drop_eq_getElem_cons (show i < (l.map some).length by simpa using hi),
          List.take_succ_cons]
        simp
      · have hm0 : m = 0 := by omega
        subst hm0
        simp only [acquireN]
        rw [hget, hdrop]
        simp
        rw [List.drop_eq_getElem_cons (show i < (l.map some).length by simpa using hi)]
        simp

/-- A full round of acquisitions from cursor 0 visits every session
once in registration order and returns the cursor to 0. -/
theorem acquireN_full_round (l : List String) (hl : l ≠ []) :
    acquireN l.length ⟨l, 0⟩ = (l.map some, ⟨l, 0⟩) := by
  have hlen : 0 < l.length := List.length_pos.mpr hl
  have h := acquireN_window l l.length 0 hlen (by omega)
  simpa using h

/-- Acquisition sequences compose. -/
theorem acquireN_add (a b : Nat) (st : SessionPool) :
    acquireN (a + b) st
      = ((acquireN a st).1 ++ (acquireN b (acquireN a st).2).1,
         (acquireN b (acquireN a st).2).2) := by
  induction a generalizing st with
  | zero => simp [acquireN]
  | succ n ih =>
      rw [show n + 1 + b = (n + b) + 1 from by omega]
      simp only [acquireN]
      rw [ih]
      simp

/-- `k` full rounds of acquisitions from cursor 0 return the pool list
repeated `k` times. -/
theorem acquireN_k_rounds (l : List String) (hl : l ≠ []) :
    ∀ k : Nat,
      acquireN (k * l.length) ⟨l, 0⟩
        = ((List.replicate k l).flatten.map some, ⟨l, 0⟩) := by
  intro k
  induction k with
  | zero => simp [acquireN]
  | succ m ih =>
      rw [show (m + 1) * l.length = l.length + m * l.length from by ring]
      rw [acquireN_add, acquireN_full_round l hl, ih]
      simp [List.replicate_succ]

/-- C8.  `acquire_session` on an empty pool returns `None` without
blocking, and on a pool initialized from a credential directory it is
round-robin: `k * n` successive acquisitions return each of the `n`
sessions exactly `k` times, visited in registration order (the
lexicographic order of the `.json` credential filenames, keeping only
those whose initialization succeeded). -/
theorem C8_round_robin_acquisition :
    (∀ st : SessionPool, st.sessions = [] → (acquire_session st).1 = none)
    ∧ (∀ (files : List String) (initOk : String → Bool) (k : Nat),
        (initialize_all files initOk).sessions ≠ [] →
        (acquireN (k * (initialize_all files initOk).sessions.length)
            (initialize_all files initOk)).1
          = (List.replicate k (initialize_all files initOk).sessions).flatten.map some) := by
  constructor
  · intro st h
    simp [acquire_session, h]
  · intro files initOk k h
    have hconf : (⟨(initialize_all files initOk).sessions, 0⟩ : SessionPool)
        = initialize_all files initOk := rfl
    have hrounds := acquireN_k_rounds (initialize_all files initOk).sessions h k
    rw [hconf] at hrounds
    exact congrArg Prod.fst hrounds

/-- Witness for C8: the spec's own scenario — five credential files of
which one is not `.json` and one fails to initialize, leaving the pool
`[a, b, d]`; six acquisitions visit each session exactly twice in
order. -/
theorem C8_witness :
    (acquire_session ⟨[], 0⟩).1 = none
    ∧ (acquireN
          (2 * (initialize_all ["b.json", "a.json", "c.json", "notes.txt", "d.json"]
              (fun f => f != "c.json")).sessions.length)
          (initialize_all ["b.json", "a.json", "c.json", "notes.txt", "d.json"]
              (fun f => f != "c.json"))).1
        = (List.replicate 2
            (initialize_all ["b.json", "a.json", "c.json", "notes.txt", "d.json"]
              (fun f => f != "c.json")).sessions).flatten.map some
    ∧ (initialize_all ["b.json", "a.json", "c.json", "notes.txt", "d.json"]
        (fun f => f != "c.json")).sessions = ["a", "b", "d"] := by
  refine ⟨C8_round_robin_acquisition.1 ⟨[], 0⟩ rfl, ?_, ?_⟩
  · exact C8_round_robin_acquisition.2 ["b.json", "a.json", "c.json", "notes.txt", "d.json"]
      (fun f => f != "c.json") 2 (by decide)
  · decide

/-! ## Theorems about the shutdown coordinator -/

/-- Stepping either caller preserves the runner/waiter split: the first
caller keeps driving the handler loop (its executed prefix extending
along the reverse registration order, the event set exactly on
completion) and the second caller never executes a handler and reaches
`finished` only with the event set. -/
theorem RunnerIsFirst_step (H : List Nat) (c : TwoCallers) (b : Bool)
    (h : RunnerIsFirst H c) : RunnerIsFirst H (schedStep c b) := by
  obtain ⟨hH, hsd, hem2, hrun, hwait⟩ := h
  cases b
  · -- step the second caller (the waiter)
    rcases hwait with hp2 | hp2 | ⟨hp2, hev⟩
    · refine ⟨?_, ?_, ?_, ?_, ?_⟩ <;>
        simp [schedStep, shutdownStep, hp2, hsd, hH, hem2, hrun, WaiterSt]
    · by_cases hev : c.sh.eventSet = true
      · refine ⟨?_, ?_, ?_, ?_, ?_⟩ <;>
          simp [schedStep, shutdownStep, hp2, hev, hH, hsd, hem2, hrun, WaiterSt]
      · have hev' : c.sh.eventSet = false := by
          revert hev; cases c.sh.eventSet <;> simp
        refine ⟨?_, ?_, ?_, ?_, ?_⟩ <;>
          simp [schedStep, shutdownStep, hp2, hev', hH, hsd, hem2, hrun, WaiterSt]
    · refine ⟨?_, ?_, ?_, ?_, ?_⟩ <;>
        simp [schedStep, shutdownStep, hp2, hev, hH, hsd, hem2, hrun, WaiterSt]
  · -- step the first caller (the runner)
    rcases hrun with ⟨rest, hp1, hev, hsum⟩ | ⟨hp1, hev, hem⟩
    · cases rest with
      | nil =>
          refine ⟨by simp [schedStep, shutdownStep, hp1, hH],
                  by simp [schedStep, shutdownStep, hp1, hsd],
                  by simp [schedStep, shutdownStep, hp1, hem2], ?_, ?_⟩
          · right
            refine ⟨by simp [schedStep, shutdownStep, hp1],
                    by simp [schedStep, shutdownStep, hp1], ?_⟩
            simp only [List.append_nil] at hsum
            simpa [schedStep, shutdownStep, hp1] using hsum
          · rcases hwait with hp2 | hp2 | ⟨hp2, hev2⟩
            · left; simp [schedStep, shutdownStep, hp1, hp2]
            · right; left; simp [schedStep, shutdownStep, hp1, hp2]
            · rw [hev2] at hev; cases hev
      | cons h1 rest' =>
          refine ⟨by simp [schedStep, shutdownStep, hp1, hH],
                  by simp [schedStep, shutdownStep, hp1, hsd],
                  by simp [schedStep, shutdownStep, hp1, hem2], ?_, ?_⟩
          · left
            refine ⟨rest', by simp [schedStep, shutdownStep, hp1],
                    by simp [schedStep, shutdownStep, hp1, hev], ?_⟩
            simp [schedStep, shutdownStep, hp1]
            rw [← hsum]
          · rcases hwait with hp2 | hp2 | ⟨hp2, hev2⟩
            · left; simp [schedStep, shutdownStep, hp1, hp2]
            · right; left; simp [schedStep, shutdownStep, hp1, hp2]
            · rw [hev2] at hev; cases hev
    · refine ⟨by simp [schedStep, shutdownStep, hp1, hH],
              by simp [schedStep, shutdownStep, hp1, hsd],
              by simp [schedStep, shutdownStep, hp1, hem2], ?_, ?_⟩
      · right
        refine ⟨by simp [schedStep, shutdownStep, hp1], ?_, ?_⟩ <;>
          simp [schedStep, shutdownStep, hp1, hev, hem]
      · rcases hwait with hp2 | hp2 | ⟨hp2, hev2⟩
        · left; simp [schedStep, shutdownStep, hp1, hp2]
        · right; left; simp [schedStep, shutdownStep, hp1, hp2]
        · right; right
          exact ⟨by simp [schedStep, shutdownStep, hp1, hp2],
                 by simp [schedStep, shutdownStep, hp1, hev2]⟩

/-- After the first caller's opening segment, it is the runner. -/
theorem RunnerIsFirst_after_first_segment (handlers : List Nat) :
    RunnerIsFirst handlers (schedStep (initConfig handlers) true) := by
  refine ⟨rfl, rfl, rfl, ?_, ?_⟩
  · left
    exact ⟨handlers.reverse, rfl, rfl, by simp [schedStep, shutdownStep, initConfig]⟩
  · left; rfl

/-- The runner/waiter split is stable under any further schedule. -/
theorem RunnerIsFirst_runSched (H : List Nat) (c : TwoCallers) (h : RunnerIsFirst H c) :
    ∀ sched : List Bool, RunnerIsFirst H (runSched c sched) := by
  intro sched
  induction sched generalizing c with
  | nil => exact h
  | cons b rest ih =>
      simp only [runSched, List.foldl_cons]
      exact ih (schedStep c b) (RunnerIsFirst_step H c b h)

/-- C2.  For two concurrent `shutdown()` callers of which the first
enters first, under every interleaving: the second caller executes no
handler; when the first caller's call has completed it has executed
exactly the registered handlers in reverse registration order, each
once; and the second caller's call completes only once the completion
event has been set, which happens only after the first caller has run
every handler. -/
theorem C2_reverse_order_exactly_once :
    ∀ (handlers : List Nat) (sched : List Bool),
      (runSched (initConfig handlers) (true :: sched)).em2 = []
      ∧ ((runSched (initConfig handlers) (true :: sched)).p1 = .finished →
          (runSched (initConfig handlers) (true :: sched)).em1 = handlers.reverse
          ∧ (runSched (initConfig handlers) (true :: sched)).sh.eventSet = true)
      ∧ ((runSched (initConfig handlers) (true :: sched)).p2 = .finished →
          (runSched (initConfig handlers) (true :: sched)).sh.eventSet = true
          ∧ (runSched (initConfig handlers) (true :: sched)).em1 = handlers.reverse) := by
  intro handlers sched
  have hrun : RunnerIsFirst handlers (runSched (initConfig handlers) (true :: sched)) := by
    have h0 := RunnerIsFirst_after_first_segment handlers
    have h1 := RunnerIsFirst_runSched handlers _ h0 sched
    simpa [runSched, List.foldl_cons] using h1
  obtain ⟨hH, hsd, hem2, hrunner, hwaiter⟩ := hrun
  refine ⟨hem2, ?_, ?_⟩
  · intro hp1
    rcases hrunner with ⟨rest, hp, _, _⟩ | ⟨_, hev, hem⟩
    · rw [hp] at hp1; cases hp1
    · exact ⟨hem, hev⟩
  · intro hp2
    rcases hwaiter with hp | hp | ⟨hp, hev⟩
    · rw [hp] at hp2; cases hp2
    · rw [hp] at hp2; cases hp2
    · rcases hrunner with ⟨rest, _, hev', _⟩ | ⟨_, _, hem⟩
      · rw [hev'] at hev; cases hev
      · exact ⟨hev, hem⟩

/-- Witness for C2: handlers registered as `[1, 2, 3]`; the first
caller starts, executes `[3, 2, 1]` and signals; the second caller then
enters, waits, and finishes without executing anything. -/
theorem C2_witness :
    (runSched (initConfig [1, 2, 3])
        (true :: [true, true, true, true, false, false])).em2 = []
    ∧ (runSched (initConfig [1, 2, 3])
        (true :: [true, true, true, true, false, false])).em1 = [1, 2, 3].reverse
    ∧ (runSched (initConfig [1, 2, 3])
        (true :: [true, true, true, true, false, false])).sh.eventSet = true := by
  have h := C2_reverse_order_exactly_once [1, 2, 3] [true, true, true, true, false, false]
  exact ⟨h.1, (h.2.1 (by decide)).1, (h.2.1 (by decide)).2⟩

/-- Witness for C4's amended theorem at concrete inputs. -/
theorem C4_witness :
    (signalStep 5 ⟨4, false, none⟩ false).count = 0
    ∧ (runIters 5 (MonitorState.init none) (List.replicate 5 (false, false))).eventSet = false
    ∧ (runIters 5 (MonitorState.init none) (List.replicate 5 (true, true))).eventSet = false :=
  ⟨C4_shared_counter_reset.1 ⟨4, false, none⟩ rfl,
   C4_shared_counter_reset.2.1 5 none,
   C4_shared_counter_reset.2.2 5 none⟩

end AIStudioProxy
